import Mathlib

/-!
Verification of the i18n (internationalization) component of the repository.
The repository holds two variants of the same `I18n` class:
  * `src/public/js/i18n.js` — the primary variant (checks `response.ok`,
    guards the switcher label against absence);
  * `src/unnamed/part_000` — a second variant of the same class whose
    `loadTranslations` performs no response-status check and whose
    `updateLanguageSwitcher` dereferences the label without a null guard.
Shared code (`t`, `applyLanguage`, `switchLanguage`, `setupLanguageSwitcher`)
is textually identical in both files up to logging, so it is embedded once;
the two points of divergence are embedded twice (`loadTranslations` vs
`loadTranslationsV0`, `updateLanguageSwitcher` vs `updateLanguageSwitcherV0`).
-/

namespace Mailfree

/-- A parsed JSON-like value, as produced by `response.json()` and stored in
`this.translations`.  Per the data model (spec section 3) the translation
resource is a tree-shaped, nested mapping from string keys to further
mappings or leaf values; we model objects, strings, numbers, booleans and
null.  Numbers are modelled as integers: the code only ever consults their
truthiness. -/
inductive JsValue : Type where
  | vNull : JsValue
  | vBool : Bool → JsValue
  | vNum : Int → JsValue
  | vStr : String → JsValue
  | vObj : List (String × JsValue) → JsValue

/-- First-match lookup among an object value's fields (JSON objects produced
by `JSON.parse` carry one binding per key). -/
def lookupField : List (String × JsValue) → String → Option JsValue
  | [], _ => none
  | (k, v) :: rest, key => if k = key then some v else lookupField rest key

/-- JavaScript truthiness of a value (`value &&` in the descent guard):
`null`, `false`, `0` and the empty string are falsy, objects are truthy. -/
def jsTruthy : JsValue → Bool
  | .vNull => false
  | .vBool b => b
  | .vNum n => n != 0
  | .vStr s => s != ""
  | .vObj _ => true

/-- `typeof value === 'object'` : true for objects and for `null`. -/
def jsIsObject : JsValue → Bool
  | .vNull => true
  | .vObj _ => true
  | _ => false

/-- `k in value` for an object value: membership among its keys.  (On values
parsed from JSON the only string-valued properties are own properties, so
own-key membership is observationally adequate for `t`.) -/
def jsHasKey (v : JsValue) (k : String) : Bool :=
  match v with
  | .vObj fs => (lookupField fs k).isSome
  | _ => false

/-- `value[k]`; only consulted under the `jsHasKey` guard, where the lookup
is defined. -/
def jsIndex (v : JsValue) (k : String) : JsValue :=
  match v with
  | .vObj fs => (lookupField fs k).getD .vNull
  | _ => .vNull

/-- JavaScript `a || b` on strings: the empty string is falsy. -/
def jsOrElse (a b : String) : String := if a = "" then b else a

def splitCharAux (sep : Char) : List Char → List Char → List String
  | [], acc => [String.mk acc.reverse]
  | c :: cs, acc =>
      if c = sep then String.mk acc.reverse :: splitCharAux sep cs []
      else splitCharAux sep cs (c :: acc)

/-- JavaScript `s.split(sep)` for a one-character separator (the code only
splits on `.` and `:`): the chunks between separator occurrences, in order,
`[""]` on the empty string. -/
def splitChar (sep : Char) (s : String) : List String :=
  splitCharAux sep s.data []

/-- The `for (const k of keys)` loop of `I18n.t` (src/public/js/i18n.js
lines 47-55, src/unnamed/part_000 lines 39-47): descend while the current
value is a truthy object containing the segment; afterwards return the value
when it is a string, else `fallback || key`. -/
def tLoop : List String → JsValue → String → String → String
  | [], value, key, fallback =>
      match value with
      | .vStr s => s
      | _ => jsOrElse fallback key
  | k :: ks, value, key, fallback =>
      if jsTruthy value && jsIsObject value && jsHasKey value k then
        tLoop ks (jsIndex value k) key fallback
      else
        jsOrElse fallback key

/-- `I18n.t(key, fallback = '')` (src/public/js/i18n.js lines 43-56,
identical in src/unnamed/part_000 lines 35-48): split the key on `.` and run
the descent loop over the current translations. -/
def t (translations : JsValue) (key : String) (fallback : String) : String :=
  tLoop (splitChar (Char.ofNat 46) key) translations key fallback

/-- The reference recursive descent of claim C1, written from the claim's
words: descend the mapping one segment per level; succeed exactly when every
segment is present and the final value is a string leaf. -/
def resolvePath : List String → JsValue → Option String
  | [], .vStr s => some s
  | [], _ => none
  | k :: ks, .vObj fs =>
      match lookupField fs k with
      | some v => resolvePath ks v
      | none => none
  | _ :: _, _ => none

/-- The reference translation function of claim C1: the leaf when the
recursive descent succeeds, otherwise `fallback` when non-empty, else the
key unchanged. -/
def tSpec (translations : JsValue) (key fallback : String) : String :=
  match resolvePath (splitChar (Char.ofNat 46) key) translations with
  | some s => s
  | none => if fallback = "" then key else fallback

/-! ## Fetching and `loadTranslations` -/

/-- The outcome of `fetch` on a URL: either the promise rejects (network
error), or a response arrives with a success flag (`response.ok`) and a body
that either parses as JSON (`some v`) or makes `response.json()` reject
(`none`). -/
inductive FetchOutcome : Type where
  | netErr : FetchOutcome
  | resp : Bool → Option JsValue → FetchOutcome

/-- The fetch environment: what retrieving each language's resource
`/js/locales/lang.json` yields during the call under study. -/
def FetchEnv : Type := String → FetchOutcome

/-- The mutable i18n fields: `this.currentLanguage` and
`this.translations`. -/
structure I18nState : Type where
  currentLanguage : String
  translations : JsValue

/-- `I18n.loadTranslations` of src/public/js/i18n.js (lines 23-41).  The
primary fetch throws on a rejected promise, on `!response.ok`, or on a body
that fails to parse; the catch block falls back to `zh` only when the
current language is `en`, and the retry (which checks neither rejection nor
status) installs whatever body parses; a failing retry is an unhandled
rejection, modelled as `.error` carrying the field state at that point
(`currentLanguage` already reset to `zh`, `translations` untouched). -/
def loadTranslations (env : FetchEnv) (st : I18nState) :
    Except I18nState I18nState :=
  match env st.currentLanguage with
  | .resp true (some j) => .ok { st with translations := j }
  | _ =>
      if st.currentLanguage = "en" then
        let st1 : I18nState := { st with currentLanguage := "zh" }
        match env "zh" with
        | .resp _ (some j) => .ok { st1 with translations := j }
        | _ => .error st1
      else
        .ok st

/-- `I18n.loadTranslations` of src/unnamed/part_000 (lines 20-33).  This
variant performs no `response.ok` check: any response whose body parses is
installed, regardless of status; only a rejected fetch or a parse failure
reaches the catch block. -/
def loadTranslationsV0 (env : FetchEnv) (st : I18nState) :
    Except I18nState I18nState :=
  match env st.currentLanguage with
  | .resp _ (some j) => .ok { st with translations := j }
  | _ =>
      if st.currentLanguage = "en" then
        let st1 : I18nState := { st with currentLanguage := "zh" }
        match env "zh" with
        | .resp _ (some j) => .ok { st1 with translations := j }
        | _ => .error st1
      else
        .ok st

/-- An outcome counts as a primary-fetch failure for the i18n.js variant:
everything except an ok-status response with a parsing body. -/
def isLoadFailure : FetchOutcome → Bool
  | .resp true (some _) => false
  | _ => true

/-- An outcome counts as a primary-fetch failure for the part_000 variant:
only a rejected fetch or a non-parsing body (status is never checked). -/
def isLoadFailureV0 : FetchOutcome → Bool
  | .resp _ (some _) => false
  | _ => true

/-! ## The document model and `applyLanguage` -/

/-- A document element as the component sees it: tag name, text content and
content attributes.  A `placeholder` property assignment reflects to the
`placeholder` content attribute exactly on INPUT/TEXTAREA elements (on any
other element it creates an unobservable expando property, modelled as a
no-op); a `title` property assignment reflects to the `title` attribute on
every HTML element. -/
structure Element : Type where
  tagName : String
  textContent : String
  attrs : List (String × String)
deriving DecidableEq

def getAttrList : List (String × String) → String → Option String
  | [], _ => none
  | (a1, v1) :: rest, a => if a1 = a then some v1 else getAttrList rest a

/-- `element.getAttribute(a)`. -/
def getAttr (e : Element) (a : String) : Option String :=
  getAttrList e.attrs a

def setAttrList : List (String × String) → String → String →
    List (String × String)
  | [], a, v => [(a, v)]
  | (a1, v1) :: rest, a, v =>
      if a1 = a then (a, v) :: rest else (a1, v1) :: setAttrList rest a v

/-- `element.setAttribute(a, v)`: replace the existing attribute in place,
or append it. -/
def setAttr (e : Element) (a v : String) : Element :=
  { e with attrs := setAttrList e.attrs a v }

/-- `element.tagName === 'INPUT' || element.tagName === 'TEXTAREA'`. -/
def inputLike (e : Element) : Bool :=
  e.tagName == "INPUT" || e.tagName == "TEXTAREA"

/-- The document: its title, the marker-bearing elements in document order,
and the language-switcher control.  `switcherLabel = none` models a missing
`#language-switcher`; `some none` a switcher without a `.btn-text`
descendant; `some (some s)` a label whose text is `s`.  (The switcher is
queried by id and its label by a descendant selector, which a flat element
list cannot express, so it is modelled as a dedicated component.) -/
structure Doc : Type where
  title : String
  elements : List Element
  switcherLabel : Option (Option String)
deriving DecidableEq

/-- One element of the `data-i18n` pass (applyLanguage lines 79-89 /
part_000 lines 68-77): write `t(key)` to the placeholder of input-like
elements, to the text content of all others. -/
def applyTextOne (tr : JsValue) (e : Element) : Element :=
  match getAttr e "data-i18n" with
  | none => e
  | some key =>
      let text := t tr key ""
      if inputLike e then setAttr e "placeholder" text
      else { e with textContent := text }

/-- One element of the `data-i18n-attr` pass (lines 92-96 / 80-84):
`const [attr, key] = attrData.split(':')` followed by
`setAttribute(attr, this.t(key))`.  When the marker has no `:` the
destructured `key` is `undefined` and `t` throws calling
`undefined.split`, aborting `applyLanguage`: modelled as `.error`. -/
def applyAttrOne (tr : JsValue) (e : Element) : Except Unit Element :=
  match getAttr e "data-i18n-attr" with
  | none => .ok e
  | some attrData =>
      match splitChar (Char.ofNat 58) attrData with
      | a :: k :: _ => .ok (setAttr e a (t tr k ""))
      | _ => .error ()

/-- The `data-i18n-attr` pass over the element list in order; a throw aborts
the iteration, leaving the already-visited prefix mutated and the rest (the
throwing element included) untouched. -/
def applyAttrPass (tr : JsValue) : List Element →
    Except (List Element) (List Element)
  | [] => .ok []
  | e :: rest =>
      match applyAttrOne tr e with
      | .error _ => .error (e :: rest)
      | .ok e1 =>
          match applyAttrPass tr rest with
          | .error l => .error (e1 :: l)
          | .ok l => .ok (e1 :: l)

/-- One element of the `data-i18n-title` pass (lines 99-102 / 87-90):
`element.title = this.t(key)`, a reflected attribute on every element. -/
def applyTitleOne (tr : JsValue) (e : Element) : Element :=
  match getAttr e "data-i18n-title" with
  | none => e
  | some key => setAttr e "title" (t tr key "")

/-- One element of the `data-i18n-placeholder` pass (lines 105-110 /
93-96): `element.placeholder = this.t(key)`; the assignment reflects to the
content attribute only on INPUT/TEXTAREA (elsewhere it is an unobservable
expando, modelled as the identity). -/
def applyPlaceholderOne (tr : JsValue) (e : Element) : Element :=
  match getAttr e "data-i18n-placeholder" with
  | none => e
  | some key =>
      if inputLike e then setAttr e "placeholder" (t tr key "") else e

/-- `I18n.applyLanguage` (src/public/js/i18n.js lines 71-111, identical up
to logging in src/unnamed/part_000 lines 63-97): set the document title to
`t('page.title')`, then run the four marker passes in order over the whole
document; each pass re-queries the document, so later passes observe the
attributes written by earlier ones.  A throw in the attribute pass rejects
with the partially mutated document. -/
def applyLanguage (tr : JsValue) (d : Doc) : Except Doc Doc :=
  let d0 : Doc := { d with title := t tr "page.title" "" }
  let es1 := d0.elements.map (applyTextOne tr)
  match applyAttrPass tr es1 with
  | .error es => .error { d0 with elements := es }
  | .ok es2 =>
      let es3 := es2.map (applyTitleOne tr)
      let es4 := es3.map (applyPlaceholderOne tr)
      .ok { d0 with elements := es4 }

/-! ## The switcher and the full operations -/

/-- The label text written by `updateLanguageSwitcher`: the display name of
the language a click would switch to. -/
def switcherText (lang : String) : String :=
  if lang = "zh" then "English" else "中文"

/-- `I18n.updateLanguageSwitcher` of src/public/js/i18n.js (lines 127-144):
when the switcher and its `.btn-text` label both exist, set the label text
to the display name of the language a click would switch to; otherwise do
nothing. -/
def updateLanguageSwitcher (lang : String) (d : Doc) : Doc :=
  match d.switcherLabel with
  | some (some _) => { d with switcherLabel := some (some (switcherText lang)) }
  | _ => d

/-- `I18n.updateLanguageSwitcher` of src/unnamed/part_000 (lines 109-120):
no null guard on the label — when the switcher exists but `.btn-text` is
absent, `text.textContent = ...` throws a TypeError, modelled as
`.error`. -/
def updateLanguageSwitcherV0 (lang : String) (d : Doc) :
    Except Unit Doc :=
  match d.switcherLabel with
  | none => .ok d
  | some none => .error ()
  | some (some _) =>
      .ok { d with switcherLabel := some (some (switcherText lang)) }

/-- The whole mutable world: the i18n fields, the persisted preference
(`localStorage` key `language`), and the document. -/
structure World : Type where
  st : I18nState
  storage : Option String
  doc : Doc

/-- `I18n.switchLanguage(lang)` (src/public/js/i18n.js lines 58-69,
identical in part_000 lines 50-61): early return when `lang` is already
current; otherwise set and persist the language, reload, re-apply, and
refresh the switcher label.  An unhandled rejection from the load retry or
from the apply pass rejects with the world at that point. -/
def switchLanguage (env : FetchEnv) (w : World) (lang : String) :
    Except World World :=
  if lang = w.st.currentLanguage then .ok w
  else
    match loadTranslations env
        { currentLanguage := lang, translations := w.st.translations } with
    | .error st1 => .error { st := st1, storage := some lang, doc := w.doc }
    | .ok st1 =>
        match applyLanguage st1.translations w.doc with
        | .error d1 => .error { st := st1, storage := some lang, doc := d1 }
        | .ok d1 =>
            .ok { st := st1, storage := some lang
                  doc := updateLanguageSwitcher st1.currentLanguage d1 }

/-- `I18n.init` (src/public/js/i18n.js lines 10-21): load, apply, wire the
switcher (registration itself changes no modelled state), then — after the
fixed delay — refresh the switcher label.  A rejection in load or apply
prevents the delayed refresh. -/
def init (env : FetchEnv) (w : World) : Except World World :=
  match loadTranslations env w.st with
  | .error st1 => .error { w with st := st1 }
  | .ok st1 =>
      match applyLanguage st1.translations w.doc with
      | .error d1 => .error { st := st1, storage := w.storage, doc := d1 }
      | .ok d1 =>
          .ok { st := st1, storage := w.storage
                doc := updateLanguageSwitcher st1.currentLanguage d1 }

/-- The click handler registered by `I18n.setupLanguageSwitcher`
(src/public/js/i18n.js lines 113-125, part_000 lines 99-107):
`const newLang = this.currentLanguage === 'zh' ? 'en' : 'zh';
this.switchLanguage(newLang)`. -/
def clickSwitcher (env : FetchEnv) (w : World) : Except World World :=
  switchLanguage env w (if w.st.currentLanguage = "zh" then "en" else "zh")

/-- The world an `Except`-valued operation leaves behind, whether it
returned normally or rejected. -/
def outWorld : Except World World → World
  | .ok w => w
  | .error w => w

/-- The i18n field state a load leaves behind, whether it returned normally
or rejected. -/
def outState : Except I18nState I18nState → I18nState
  | .ok s => s
  | .error s => s

/-- Whether an `Except`-valued operation returned normally. -/
def exceptOk {α β : Type} : Except α β → Bool
  | .ok _ => true
  | .error _ => false

/-- The attribute name an element's `data-i18n-attr` marker targets (the
part before the first `:`), when the marker is present. -/
def attrTarget (e : Element) : Option String :=
  (getAttr e "data-i18n-attr").map (fun s => (splitChar (Char.ofNat 58) s).headD "")

/-- An element's `data-i18n-attr` marker, when present, has an explicit key
part (so the attribute pass does not throw) and does not target the
`data-i18n-attr` attribute itself (so the marker set is stable across
applications). -/
def attrMarkerOK (e : Element) : Bool :=
  match getAttr e "data-i18n-attr" with
  | none => true
  | some s =>
      match splitChar (Char.ofNat 58) s with
      | a :: _ :: _ => a != "data-i18n-attr"
      | _ => false

/-- Well-formed document: every element's attribute marker is well formed. -/
def wfDoc (d : Doc) : Bool := d.elements.all attrMarkerOK

/-! ## Basic properties of the lookup function `t` -/

theorem tLoop_eq_resolvePath (segs : List String) (v : JsValue)
    (key fallback : String) :
    tLoop segs v key fallback =
      match resolvePath segs v with
      | some s => s
      | none => jsOrElse fallback key := by
  induction segs generalizing v with
  | nil =>
      cases v <;> simp [tLoop, resolvePath]
  | cons k ks ih =>
      cases v with
      | vNull => simp [tLoop, resolvePath, jsTruthy, jsIsObject, jsHasKey]
      | vBool b => cases b <;>
          simp [tLoop, resolvePath, jsTruthy, jsIsObject, jsHasKey]
      | vNum n =>
          simp [tLoop, resolvePath, jsTruthy, jsIsObject, jsHasKey]
      | vStr s =>
          simp [tLoop, resolvePath, jsTruthy, jsIsObject, jsHasKey]
      | vObj fs =>
          cases hfind : lookupField fs k with
          | none =>
              simp [tLoop, resolvePath, jsTruthy, jsIsObject, jsHasKey, hfind]
          | some v' =>
              simp [tLoop, resolvePath, jsTruthy, jsIsObject, jsHasKey,
                hfind, jsIndex, ih]

theorem t_eq_tSpec (translations : JsValue) (key fallback : String) :
    t translations key fallback = tSpec translations key fallback := by
  unfold t tSpec
  rw [tLoop_eq_resolvePath]
  cases resolvePath (splitChar (Char.ofNat 46) key) translations <;> simp [jsOrElse]

/-- C1: for every translation mapping, key string, and fallback string,
`t(key, fallback)` equals the reference recursive descent: split the key on
`.`, descend one segment per level; when every segment is present and the
final value is a string, return that leaf; otherwise return the fallback
when it is non-empty, else the key unchanged. -/
theorem t_matches_reference_descent (translations : JsValue)
    (key fallback : String) :
    t translations key fallback = tSpec translations key fallback :=
  t_eq_tSpec translations key fallback

/-- C7 counterexample: with mapping `{"a": ""}` the lookup `t("a", "x")`
returns the empty string even though both the key and the fallback are
non-empty, so `t` can yield a blank string. -/
theorem t_returns_blank_string :
    t (JsValue.vObj [("a", JsValue.vStr "")]) "a" "x" = "" := by
  decide

/-- C7 (amended): `t` is a total function (it terminates and returns a
string on every mapping, key and fallback), and its result is non-empty
provided the key is non-empty and every string leaf reachable by descent in
the mapping is non-empty. -/
theorem t_total_and_nonempty (tr : JsValue) (key fallback : String)
    (hkey : key ≠ "")
    (hleaf : ∀ segs s, resolvePath segs tr = some s → s ≠ "") :
    t tr key fallback ≠ "" := by
  rw [t_eq_tSpec]
  unfold tSpec
  cases hres : resolvePath (splitChar (Char.ofNat 46) key) tr with
  | some s => exact hleaf _ s hres
  | none =>
      by_cases hfb : fallback = "" <;> simp [hfb, hkey]

theorem t_total_and_nonempty_witness :
    ("a" : String) ≠ "" ∧
    (∀ segs s, resolvePath segs (JsValue.vStr "A") = some s → s ≠ "") ∧
    t (JsValue.vStr "A") "a" "" ≠ "" := by
  have hleaf : ∀ segs s, resolvePath segs (JsValue.vStr "A") = some s →
      s ≠ "" := by
    intro segs s h
    cases segs with
    | nil =>
        simp [resolvePath] at h
        subst h
        decide
    | cons a as => simp [resolvePath] at h
  exact ⟨by decide, hleaf,
    t_total_and_nonempty (JsValue.vStr "A") "a" "" (by decide) hleaf⟩

/-! ## `switchLanguage` and `loadTranslations` -/

/-- C3: switching to the currently active language is a complete no-op: the
call returns immediately and the whole world — active language, persisted
preference, translation mapping and document — is returned unchanged, for
every fetch environment (so in particular no fetch is consulted). -/
theorem switchLanguage_same_lang_noop (env : FetchEnv) (w : World) :
    switchLanguage env w w.st.currentLanguage = .ok w := by
  simp [switchLanguage]

/-- C5: when the active language is already the default `zh` and the load
of its resource fails, `loadTranslations` (in either variant, each with its
own notion of retrieval failure) returns with the active language and the
translation mapping exactly as they were before the call. -/
theorem loadTranslations_default_failure_unchanged (env : FetchEnv)
    (st : I18nState) (hcur : st.currentLanguage = "zh") :
    (isLoadFailure (env "zh") = true → loadTranslations env st = .ok st) ∧
    (isLoadFailureV0 (env "zh") = true →
      loadTranslationsV0 env st = .ok st) := by
  obtain ⟨cur, trs⟩ := st
  simp only [I18nState.mk.injEq] at hcur
  subst hcur
  constructor
  · intro hf
    cases henv : env "zh" with
    | netErr => simp [loadTranslations, henv]
    | resp ok body =>
        rw [henv] at hf
        cases ok <;> cases body <;>
          simp_all [loadTranslations, henv, isLoadFailure]
  · intro hf
    cases henv : env "zh" with
    | netErr => simp [loadTranslationsV0, henv]
    | resp ok body =>
        rw [henv] at hf
        cases ok <;> cases body <;>
          simp_all [loadTranslationsV0, henv, isLoadFailureV0]

theorem loadTranslations_default_failure_unchanged_witness :
    (I18nState.mk "zh" (JsValue.vObj [("k", JsValue.vStr "v")])).currentLanguage
        = "zh" ∧
    ((isLoadFailure ((fun _ => FetchOutcome.netErr) "zh") = true →
        loadTranslations (fun _ => FetchOutcome.netErr)
          (I18nState.mk "zh" (JsValue.vObj [("k", JsValue.vStr "v")])) =
          .ok (I18nState.mk "zh" (JsValue.vObj [("k", JsValue.vStr "v")]))) ∧
     (isLoadFailureV0 ((fun _ => FetchOutcome.netErr) "zh") = true →
        loadTranslationsV0 (fun _ => FetchOutcome.netErr)
          (I18nState.mk "zh" (JsValue.vObj [("k", JsValue.vStr "v")])) =
          .ok (I18nState.mk "zh" (JsValue.vObj [("k", JsValue.vStr "v")])))) :=
  ⟨rfl, loadTranslations_default_failure_unchanged
    (fun _ => FetchOutcome.netErr)
    (I18nState.mk "zh" (JsValue.vObj [("k", JsValue.vStr "v")])) rfl⟩

/-- C6 counterexample: in the part_000 variant a response with a non-success
status whose body is valid JSON is installed as the translation mapping
(there is no status check), contradicting the claim that a non-ok response
whose body is valid JSON never becomes the mapping. -/
theorem loadTranslationsV0_installs_nonOk_body :
    loadTranslationsV0 (fun _ => FetchOutcome.resp false (some (JsValue.vStr "X")))
      (I18nState.mk "zh" (JsValue.vObj [])) =
      .ok (I18nState.mk "zh" (JsValue.vStr "X")) := rfl

/-- C6 (amended): in the src/public/js/i18n.js variant a response with a
non-success status is treated exactly like a network error — the whole call
behaves as if the primary fetch had rejected — so a non-ok response whose
body is valid JSON never becomes the mapping through the primary path.  (The
part_000 variant checks no status; see the counterexample.) -/
theorem loadTranslations_nonOk_is_failure (env : FetchEnv) (st : I18nState)
    (body : Option JsValue) (henv : env st.currentLanguage = .resp false body) :
    loadTranslations env st =
      loadTranslations
        (fun l => if l = st.currentLanguage then FetchOutcome.netErr else env l)
        st := by
  obtain ⟨cur, trs⟩ := st
  simp only at henv
  by_cases hen : cur = "en"
  · subst hen
    have hzh : ("zh" : String) ≠ "en" := by decide
    simp [loadTranslations, henv, hzh]
  · simp [loadTranslations, henv, hen]

theorem loadTranslations_nonOk_is_failure_witness :
    ((fun _ => FetchOutcome.resp false (some (JsValue.vStr "X")))
        (I18nState.mk "zh" (JsValue.vObj [])).currentLanguage =
      FetchOutcome.resp false (some (JsValue.vStr "X"))) ∧
    loadTranslations (fun _ => FetchOutcome.resp false (some (JsValue.vStr "X")))
        (I18nState.mk "zh" (JsValue.vObj [])) =
      loadTranslations
        (fun l => if l = (I18nState.mk "zh" (JsValue.vObj [])).currentLanguage
          then FetchOutcome.netErr
          else (fun _ => FetchOutcome.resp false (some (JsValue.vStr "X"))) l)
        (I18nState.mk "zh" (JsValue.vObj [])) :=
  ⟨rfl, loadTranslations_nonOk_is_failure
    (fun _ => FetchOutcome.resp false (some (JsValue.vStr "X")))
    (I18nState.mk "zh" (JsValue.vObj [])) (some (JsValue.vStr "X")) rfl⟩

/-! ## The language switcher label -/

/-- C9 counterexample: in the part_000 variant, when the switcher exists but
its `.btn-text` label sub-element is absent, `updateLanguageSwitcher` throws
a TypeError (`text.textContent` on `null`) instead of silently doing
nothing. -/
theorem updateLanguageSwitcherV0_missing_label_throws :
    updateLanguageSwitcherV0 "zh" (Doc.mk "T" [] (some none)) =
      .error () := rfl

/-- C9 (amended): in the src/public/js/i18n.js variant,
`updateLanguageSwitcher` with the toggle present but its label sub-element
absent terminates without error and leaves the document (and hence all
state) unchanged; the part_000 variant instead throws a TypeError in that
situation (see the counterexample). -/
theorem updateLanguageSwitcher_missing_label_noop (lang : String) (d : Doc)
    (h : d.switcherLabel = some none) :
    updateLanguageSwitcher lang d = d := by
  unfold updateLanguageSwitcher
  rw [h]

theorem updateLanguageSwitcher_missing_label_noop_witness :
    (Doc.mk "T" [] (some none)).switcherLabel = some none ∧
    updateLanguageSwitcher "zh" (Doc.mk "T" [] (some none)) =
      Doc.mk "T" [] (some none) :=
  ⟨rfl, updateLanguageSwitcher_missing_label_noop "zh"
    (Doc.mk "T" [] (some none)) rfl⟩

theorem switchLanguage_st_after (env : FetchEnv) (w : World) (lang : String)
    (hne : lang ≠ w.st.currentLanguage) :
    (outWorld (switchLanguage env w lang)).st =
      outState (loadTranslations env
        { currentLanguage := lang, translations := w.st.translations }) := by
  unfold switchLanguage
  rw [if_neg hne]
  cases hload : loadTranslations env
      { currentLanguage := lang, translations := w.st.translations } with
  | error st1 => simp [outWorld, outState]
  | ok st1 =>
      cases h2 : applyLanguage st1.translations w.doc <;>
        simp [h2, outWorld, outState]

/-- C4: when `switchLanguage("en")` is called with `en` not already active,
the retrieval of `en`'s resource fails, and `zh`'s resource yields a parsing
body, then afterwards — whether the call returned normally or rejected in
the apply pass — the active language is the default `zh` and the translation
mapping is the parsed default-language resource. -/
theorem switchLanguage_en_failure_falls_back (env : FetchEnv) (w : World)
    (trZh : JsValue) (b : Bool)
    (hcur : w.st.currentLanguage ≠ "en")
    (hen : isLoadFailure (env "en") = true)
    (hzh : env "zh" = .resp b (some trZh)) :
    (outWorld (switchLanguage env w "en")).st.currentLanguage = "zh" ∧
    (outWorld (switchLanguage env w "en")).st.translations = trZh := by
  have hne : ("en" : String) ≠ w.st.currentLanguage := fun h => hcur h.symm
  have hload : loadTranslations env
      { currentLanguage := "en", translations := w.st.translations } =
      .ok { currentLanguage := "zh", translations := trZh } := by
    cases henv : env "en" with
    | netErr => simp [loadTranslations, henv, hzh]
    | resp ok body =>
        rw [henv] at hen
        cases ok <;> cases body <;>
          simp_all [loadTranslations, henv, hzh, isLoadFailure]
  rw [switchLanguage_st_after env w "en" hne, hload]
  exact ⟨rfl, rfl⟩

theorem switchLanguage_en_failure_falls_back_witness :
    ((World.mk (I18nState.mk "zh" (JsValue.vObj [])) none
        (Doc.mk "" [] none)).st.currentLanguage ≠ "en") ∧
    isLoadFailure
      ((fun l => if l = "zh"
          then FetchOutcome.resp true (some (JsValue.vObj [("k", JsValue.vStr "v")]))
          else FetchOutcome.netErr) "en") = true ∧
    ((fun l => if l = "zh"
        then FetchOutcome.resp true (some (JsValue.vObj [("k", JsValue.vStr "v")]))
        else FetchOutcome.netErr) "zh" =
      FetchOutcome.resp true (some (JsValue.vObj [("k", JsValue.vStr "v")]))) ∧
    ((outWorld (switchLanguage
        (fun l => if l = "zh"
          then FetchOutcome.resp true (some (JsValue.vObj [("k", JsValue.vStr "v")]))
          else FetchOutcome.netErr)
        (World.mk (I18nState.mk "zh" (JsValue.vObj [])) none (Doc.mk "" [] none))
        "en")).st.currentLanguage = "zh" ∧
     (outWorld (switchLanguage
        (fun l => if l = "zh"
          then FetchOutcome.resp true (some (JsValue.vObj [("k", JsValue.vStr "v")]))
          else FetchOutcome.netErr)
        (World.mk (I18nState.mk "zh" (JsValue.vObj [])) none (Doc.mk "" [] none))
        "en")).st.translations = JsValue.vObj [("k", JsValue.vStr "v")]) := by
  refine ⟨by decide, by decide, rfl, ?_⟩
  exact switchLanguage_en_failure_falls_back
    (fun l => if l = "zh"
      then FetchOutcome.resp true (some (JsValue.vObj [("k", JsValue.vStr "v")]))
      else FetchOutcome.netErr)
    (World.mk (I18nState.mk "zh" (JsValue.vObj [])) none (Doc.mk "" [] none))
    (JsValue.vObj [("k", JsValue.vStr "v")]) true
    (by decide) (by decide) rfl

/-- C10: whatever the current active-language value is (including
unsupported values restored from the persisted preference), a click of the
toggle invokes `switchLanguage` with `en` exactly when the current value is
`zh` and with `zh` otherwise; consequently, whether the resulting call
returns normally or rejects, the active language afterwards is one of the
two supported codes, so an unsupported value is replaced after a single
click. -/
theorem loadTranslations_outLang (env : FetchEnv) (st : I18nState) :
    (outState (loadTranslations env st)).currentLanguage =
        st.currentLanguage ∨
    (outState (loadTranslations env st)).currentLanguage = "zh" := by
  unfold loadTranslations
  cases env st.currentLanguage with
  | netErr =>
      by_cases hen : st.currentLanguage = "en"
      · cases env "zh" with
        | netErr => simp [outState, hen]
        | resp ok2 body2 => cases body2 <;> simp [outState, hen]
      · simp [outState, hen]
  | resp ok body =>
      cases ok with
      | true =>
          cases body with
          | some j => simp [outState]
          | none =>
              by_cases hen : st.currentLanguage = "en"
              · cases env "zh" with
                | netErr => simp [outState, hen]
                | resp ok2 body2 => cases body2 <;> simp [outState, hen]
              · simp [outState, hen]
      | false =>
          by_cases hen : st.currentLanguage = "en"
          · cases env "zh" with
            | netErr => simp [outState, hen]
            | resp ok2 body2 => cases body2 <;> simp [outState, hen]
          · simp [outState, hen]

theorem clickSwitcher_yields_supported_language (env : FetchEnv) (w : World)
    (hsw : w.doc.switcherLabel.isSome = true) :
    clickSwitcher env w =
      switchLanguage env w
        (if w.st.currentLanguage = "zh" then "en" else "zh") ∧
    ((outWorld (clickSwitcher env w)).st.currentLanguage = "zh" ∨
     (outWorld (clickSwitcher env w)).st.currentLanguage = "en") := by
  refine ⟨rfl, ?_⟩
  unfold clickSwitcher
  by_cases hzh : w.st.currentLanguage = "zh"
  · have hif : (if w.st.currentLanguage = "zh" then "en" else "zh") = "en" := by
      rw [hzh]; decide
    rw [hif]
    have hne : ("en" : String) ≠ w.st.currentLanguage := by
      rw [hzh]; decide
    rw [switchLanguage_st_after env w "en" hne]
    rcases loadTranslations_outLang env
        { currentLanguage := "en", translations := w.st.translations } with
      h | h
    · right; exact h
    · left; exact h
  · have hif : (if w.st.currentLanguage = "zh" then "en" else "zh") = "zh" := by
      rw [if_neg hzh]
    rw [hif]
    have hne : ("zh" : String) ≠ w.st.currentLanguage := fun h => hzh h.symm
    rw [switchLanguage_st_after env w "zh" hne]
    rcases loadTranslations_outLang env
        { currentLanguage := "zh", translations := w.st.translations } with
      h | h
    · left; exact h
    · left; exact h

theorem clickSwitcher_yields_supported_language_witness :
    (World.mk (I18nState.mk "fr" (JsValue.vObj [])) (some "fr")
        (Doc.mk "" [] (some none))).doc.switcherLabel.isSome = true ∧
    (clickSwitcher (fun _ => FetchOutcome.netErr)
        (World.mk (I18nState.mk "fr" (JsValue.vObj [])) (some "fr")
          (Doc.mk "" [] (some none))) =
      switchLanguage (fun _ => FetchOutcome.netErr)
        (World.mk (I18nState.mk "fr" (JsValue.vObj [])) (some "fr")
          (Doc.mk "" [] (some none)))
        (if (World.mk (I18nState.mk "fr" (JsValue.vObj [])) (some "fr")
            (Doc.mk "" [] (some none))).st.currentLanguage = "zh"
          then "en" else "zh") ∧
     ((outWorld (clickSwitcher (fun _ => FetchOutcome.netErr)
          (World.mk (I18nState.mk "fr" (JsValue.vObj [])) (some "fr")
            (Doc.mk "" [] (some none))))).st.currentLanguage = "zh" ∨
      (outWorld (clickSwitcher (fun _ => FetchOutcome.netErr)
          (World.mk (I18nState.mk "fr" (JsValue.vObj [])) (some "fr")
            (Doc.mk "" [] (some none))))).st.currentLanguage = "en")) :=
  ⟨rfl, clickSwitcher_yields_supported_language (fun _ => FetchOutcome.netErr)
    (World.mk (I18nState.mk "fr" (JsValue.vObj [])) (some "fr")
      (Doc.mk "" [] (some none))) rfl⟩

/-! ## Attribute and pass lemmas -/

theorem getAttrList_setAttrList (l : List (String × String)) (a v b : String) :
    getAttrList (setAttrList l a v) b =
      if a = b then some v else getAttrList l b := by
  induction l with
  | nil =>
      by_cases h : a = b <;> simp [setAttrList, getAttrList, h]
  | cons p rest ih =>
      obtain ⟨a1, v1⟩ := p
      by_cases h1 : a1 = a
      · subst h1
        by_cases h : a1 = b <;> simp [setAttrList, getAttrList, h]
      · by_cases h : a1 = b
        · subst h
          have : a ≠ a1 := fun hh => h1 hh.symm
          simp [setAttrList, getAttrList, h1, this]
        · simp [setAttrList, getAttrList, h1, h, ih]

theorem getAttr_setAttr (e : Element) (a v b : String) :
    getAttr (setAttr e a v) b = if a = b then some v else getAttr e b :=
  getAttrList_setAttrList e.attrs a v b

theorem tagName_setAttr (e : Element) (a v : String) :
    (setAttr e a v).tagName = e.tagName := rfl

theorem textContent_setAttr (e : Element) (a v : String) :
    (setAttr e a v).textContent = e.textContent := rfl

theorem inputLike_setAttr (e : Element) (a v : String) :
    inputLike (setAttr e a v) = inputLike e := rfl

theorem getAttr_applyTextOne (tr : JsValue) (e : Element) (b : String)
    (hb : b ≠ "placeholder") :
    getAttr (applyTextOne tr e) b = getAttr e b := by
  unfold applyTextOne
  cases hk : getAttr e "data-i18n" with
  | none => rfl
  | some k =>
      by_cases hil : inputLike e
      · have : "placeholder" ≠ b := fun h => hb h.symm
        simp [hil, getAttr_setAttr, this]
      · simp only [hil]
        simp [getAttr]

theorem tagName_applyTextOne (tr : JsValue) (e : Element) :
    (applyTextOne tr e).tagName = e.tagName := by
  unfold applyTextOne
  cases getAttr e "data-i18n" with
  | none => rfl
  | some k => by_cases hil : inputLike e <;> simp [hil, tagName_setAttr]

theorem inputLike_applyTextOne (tr : JsValue) (e : Element) :
    inputLike (applyTextOne tr e) = inputLike e := by
  unfold inputLike
  rw [tagName_applyTextOne]

theorem getAttr_applyTitleOne (tr : JsValue) (e : Element) (b : String)
    (hb : b ≠ "title") :
    getAttr (applyTitleOne tr e) b = getAttr e b := by
  unfold applyTitleOne
  cases hk : getAttr e "data-i18n-title" with
  | none => rfl
  | some k =>
      have : "title" ≠ b := fun h => hb h.symm
      simp [getAttr_setAttr, this]

theorem textContent_applyTitleOne (tr : JsValue) (e : Element) :
    (applyTitleOne tr e).textContent = e.textContent := by
  unfold applyTitleOne
  cases getAttr e "data-i18n-title" with
  | none => rfl
  | some k => rfl

theorem tagName_applyTitleOne (tr : JsValue) (e : Element) :
    (applyTitleOne tr e).tagName = e.tagName := by
  unfold applyTitleOne
  cases getAttr e "data-i18n-title" with
  | none => rfl
  | some k => rfl

theorem inputLike_applyTitleOne (tr : JsValue) (e : Element) :
    inputLike (applyTitleOne tr e) = inputLike e := by
  unfold inputLike
  rw [tagName_applyTitleOne]

theorem getAttr_applyPlaceholderOne (tr : JsValue) (e : Element) (b : String)
    (hb : b ≠ "placeholder") :
    getAttr (applyPlaceholderOne tr e) b = getAttr e b := by
  unfold applyPlaceholderOne
  cases hk : getAttr e "data-i18n-placeholder" with
  | none => rfl
  | some k =>
      by_cases hil : inputLike e
      · have : "placeholder" ≠ b := fun h => hb h.symm
        simp [hil, getAttr_setAttr, this]
      · simp [hil]

theorem textContent_applyPlaceholderOne (tr : JsValue) (e : Element) :
    (applyPlaceholderOne tr e).textContent = e.textContent := by
  unfold applyPlaceholderOne
  cases getAttr e "data-i18n-placeholder" with
  | none => rfl
  | some k =>
      by_cases hil : inputLike e <;> simp [hil, textContent_setAttr]

theorem applyAttrOne_preserves (tr : JsValue) (e1 e2 : Element)
    (h : applyAttrOne tr e1 = .ok e2) :
    e2.textContent = e1.textContent ∧ e2.tagName = e1.tagName := by
  cases hm : getAttr e1 "data-i18n-attr" with
  | none =>
      simp only [applyAttrOne, hm, Except.ok.injEq] at h
      rw [← h]
      exact ⟨rfl, rfl⟩
  | some s =>
      cases hsplit : splitChar (Char.ofNat 58) s with
      | nil => simp [applyAttrOne, hm, hsplit] at h
      | cons a rest =>
          cases rest with
          | nil => simp [applyAttrOne, hm, hsplit] at h
          | cons k rest2 =>
              simp only [applyAttrOne, hm, hsplit, Except.ok.injEq] at h
              rw [← h]
              exact ⟨rfl, rfl⟩

theorem applyAttrOne_ok_of_attrMarkerOK (tr : JsValue) (e : Element)
    (h : attrMarkerOK e = true) :
    ∃ e1, applyAttrOne tr e = .ok e1 ∧
      getAttr e1 "data-i18n-attr" = getAttr e "data-i18n-attr" ∧
      attrMarkerOK e1 = true := by
  cases hm : getAttr e "data-i18n-attr" with
  | none =>
      refine ⟨e, ?_, ?_, ?_⟩
      · simp [applyAttrOne, hm]
      · rw [hm]
      · exact h
  | some s =>
      simp only [attrMarkerOK, hm] at h
      cases hsplit : splitChar (Char.ofNat 58) s with
      | nil => simp [hsplit] at h
      | cons a rest =>
          cases rest with
          | nil => simp [hsplit] at h
          | cons k rest2 =>
              rw [hsplit] at h
              have ha : a ≠ "data-i18n-attr" := by
                simpa using h
              refine ⟨setAttr e a (t tr k ""), ?_, ?_, ?_⟩
              · simp [applyAttrOne, hm, hsplit]
              · rw [getAttr_setAttr, if_neg ha, hm]
              · simp only [attrMarkerOK, getAttr_setAttr, if_neg ha, hm,
                  hsplit]
                simpa using h

theorem applyAttrPass_ok_of_wf (tr : JsValue) :
    ∀ es : List Element, es.all attrMarkerOK = true →
      ∃ es1, applyAttrPass tr es = .ok es1 ∧
        es1.all attrMarkerOK = true := by
  intro es
  induction es with
  | nil => intro _; exact ⟨[], rfl, rfl⟩
  | cons e rest ih =>
      intro h
      rw [List.all_cons, Bool.and_eq_true] at h
      obtain ⟨e1, he1, _, hok1⟩ := applyAttrOne_ok_of_attrMarkerOK tr e h.1
      obtain ⟨es1, hes1, hall1⟩ := ih h.2
      refine ⟨e1 :: es1, ?_, ?_⟩
      · unfold applyAttrPass
        rw [he1, hes1]
      · rw [List.all_cons, Bool.and_eq_true]
        exact ⟨hok1, hall1⟩

theorem applyAttrPass_ok_pointwise (tr : JsValue) :
    ∀ (es es1 : List Element), applyAttrPass tr es = .ok es1 →
      es1.length = es.length ∧
      ∀ i (hi : i < es.length) (hi1 : i < es1.length),
        applyAttrOne tr es[i] = .ok es1[i] := by
  intro es
  induction es with
  | nil =>
      intro es1 h
      unfold applyAttrPass at h
      cases h
      exact ⟨rfl, fun i hi _ => absurd hi (Nat.not_lt_zero i)⟩
  | cons e rest ih =>
      intro es1 h
      unfold applyAttrPass at h
      cases hone : applyAttrOne tr e with
      | error u => rw [hone] at h; cases h
      | ok e1 =>
          rw [hone] at h
          cases hrest : applyAttrPass tr rest with
          | error l => rw [hrest] at h; cases h
          | ok l =>
              rw [hrest] at h
              cases h
              obtain ⟨hlen, hpt⟩ := ih l hrest
              refine ⟨by simp [hlen], ?_⟩
              intro i hi hi1
              cases i with
              | zero => simpa using hone
              | succ n =>
                  have hn : n < rest.length := Nat.lt_of_succ_lt_succ hi
                  have hn1 : n < l.length := Nat.lt_of_succ_lt_succ hi1
                  simpa using hpt n hn hn1

theorem attrMarkerOK_applyTextOne (tr : JsValue) (e : Element) :
    attrMarkerOK (applyTextOne tr e) = attrMarkerOK e := by
  unfold attrMarkerOK
  rw [getAttr_applyTextOne tr e "data-i18n-attr" (by decide)]

theorem attrMarkerOK_applyTitleOne (tr : JsValue) (e : Element) :
    attrMarkerOK (applyTitleOne tr e) = attrMarkerOK e := by
  unfold attrMarkerOK
  rw [getAttr_applyTitleOne tr e "data-i18n-attr" (by decide)]

theorem attrMarkerOK_applyPlaceholderOne (tr : JsValue) (e : Element) :
    attrMarkerOK (applyPlaceholderOne tr e) = attrMarkerOK e := by
  unfold attrMarkerOK
  rw [getAttr_applyPlaceholderOne tr e "data-i18n-attr" (by decide)]

theorem applyLanguage_ok_of_wf (tr : JsValue) (d : Doc)
    (h : wfDoc d = true) :
    ∃ d1, applyLanguage tr d = .ok d1 ∧
      d1.switcherLabel = d.switcherLabel ∧ wfDoc d1 = true := by
  have h1 : (d.elements.map (applyTextOne tr)).all attrMarkerOK = true := by
    rw [List.all_map]
    have : ∀ e ∈ d.elements, (attrMarkerOK ∘ applyTextOne tr) e = true := by
      intro e he
      have := List.all_eq_true.mp h e he
      simpa [attrMarkerOK_applyTextOne] using this
    exact List.all_eq_true.mpr this
  obtain ⟨es2, hes2, hall2⟩ :=
    applyAttrPass_ok_of_wf tr (d.elements.map (applyTextOne tr)) h1
  refine ⟨{ title := t tr "page.title" ""
            elements := (es2.map (applyTitleOne tr)).map (applyPlaceholderOne tr)
            switcherLabel := d.switcherLabel }, ?_, rfl, ?_⟩
  · simp only [applyLanguage, hes2]
  · unfold wfDoc
    simp only [List.all_map]
    refine List.all_eq_true.mpr ?_
    intro e he
    have := List.all_eq_true.mp hall2 e he
    simpa [attrMarkerOK_applyTitleOne, attrMarkerOK_applyPlaceholderOne]
      using this

theorem wfDoc_updateLanguageSwitcher (lang : String) (d : Doc) :
    wfDoc (updateLanguageSwitcher lang d) = wfDoc d := by
  unfold updateLanguageSwitcher
  cases h : d.switcherLabel with
  | none => rfl
  | some lab => cases lab <;> rfl

theorem switcherLabel_updateLanguageSwitcher (lang : String) (d : Doc)
    (s : String) (h : d.switcherLabel = some (some s)) :
    (updateLanguageSwitcher lang d).switcherLabel =
      some (some (switcherText lang)) := by
  unfold updateLanguageSwitcher
  rw [h]

theorem loadTranslations_zh_ok (env : FetchEnv) (st : I18nState)
    (h : st.currentLanguage = "zh") :
    ∃ st1, loadTranslations env st = .ok st1 ∧
      st1.currentLanguage = "zh" := by
  obtain ⟨cur, trs⟩ := st
  simp only at h
  subst h
  cases henv : env "zh" with
  | netErr =>
      exact ⟨⟨"zh", trs⟩, by simp [loadTranslations, henv], rfl⟩
  | resp ok body =>
      cases ok with
      | true =>
          cases body with
          | some j =>
              exact ⟨⟨"zh", j⟩, by simp [loadTranslations, henv], rfl⟩
          | none =>
              exact ⟨⟨"zh", trs⟩, by simp [loadTranslations, henv], rfl⟩
      | false =>
          cases body with
          | some j =>
              exact ⟨⟨"zh", trs⟩, by simp [loadTranslations, henv], rfl⟩
          | none =>
              exact ⟨⟨"zh", trs⟩, by simp [loadTranslations, henv], rfl⟩

/-- C8 (amended): with the toggle control and its label present, the
document's attribute markers well formed (so the apply pass completes), and
the `en` resource loading successfully, initialization with active language
`zh` (the default) leaves the label reading `English`; one click then
switches the active language to `en`, installs the parsed `en` mapping, and
sets the label to `中文`.  (Without the two provisos the claim fails: see
the counterexample, where the `en` load failure leaves the language `zh` and
the label `English`.) -/
theorem toggle_label_after_init_and_click (env : FetchEnv) (w : World)
    (s0 : String) (trE : JsValue)
    (hcur : w.st.currentLanguage = "zh")
    (hlab : w.doc.switcherLabel = some (some s0))
    (hwf : wfDoc w.doc = true)
    (hen : env "en" = .resp true (some trE)) :
    ∃ w1 w2,
      init env w = .ok w1 ∧
      w1.st.currentLanguage = "zh" ∧
      w1.doc.switcherLabel = some (some "English") ∧
      clickSwitcher env w1 = .ok w2 ∧
      w2.st.currentLanguage = "en" ∧
      w2.st.translations = trE ∧
      w2.doc.switcherLabel = some (some "中文") := by
  obtain ⟨st1, hload, hst1⟩ := loadTranslations_zh_ok env w.st hcur
  obtain ⟨lang1, tr1⟩ := st1
  simp only at hst1
  subst hst1
  obtain ⟨d1, happ, hlab1, hwf1⟩ := applyLanguage_ok_of_wf tr1 w.doc hwf
  have hlab1s : d1.switcherLabel = some (some s0) := hlab1.trans hlab
  have hinit : init env w =
      .ok { st := ⟨"zh", tr1⟩, storage := w.storage
            doc := updateLanguageSwitcher "zh" d1 } := by
    simp only [init, hload, happ]
  have hlabw1 : (updateLanguageSwitcher "zh" d1).switcherLabel =
      some (some "English") := by
    rw [switcherLabel_updateLanguageSwitcher "zh" d1 s0 hlab1s]
    rfl
  have hwfw1 : wfDoc (updateLanguageSwitcher "zh" d1) = true := by
    rw [wfDoc_updateLanguageSwitcher]
    exact hwf1
  obtain ⟨d2, happ2, hlab2, hwf2⟩ :=
    applyLanguage_ok_of_wf trE (updateLanguageSwitcher "zh" d1) hwfw1
  have hload2 : loadTranslations env
      { currentLanguage := "en", translations := tr1 } =
      .ok { currentLanguage := "en", translations := trE } := by
    simp [loadTranslations, hen]
  refine ⟨{ st := ⟨"zh", tr1⟩, storage := w.storage
            doc := updateLanguageSwitcher "zh" d1 },
    { st := { currentLanguage := "en", translations := trE }
      storage := some "en"
      doc := updateLanguageSwitcher "en" d2 },
    hinit, rfl, hlabw1, ?_, rfl, rfl, ?_⟩
  · simp [clickSwitcher, switchLanguage, hload2, happ2]
  · rw [switcherLabel_updateLanguageSwitcher "en" d2 "English"
      (hlab2.trans hlabw1)]
    rfl

/-- C8 counterexample: when every fetch rejects, initialization still sets
the label to `English`, but one click does not switch the active language to
`en` — the load of `en` fails, the language falls back to `zh`, the retry
rejects, and the label never becomes `中文`. -/
theorem toggle_click_no_switch_on_failure :
    init (fun _ => FetchOutcome.netErr)
        (World.mk (I18nState.mk "zh" (JsValue.vObj [])) none
          (Doc.mk "" [] (some (some "x")))) =
      .ok (World.mk (I18nState.mk "zh" (JsValue.vObj [])) none
        (Doc.mk "page.title" [] (some (some "English")))) ∧
    clickSwitcher (fun _ => FetchOutcome.netErr)
        (World.mk (I18nState.mk "zh" (JsValue.vObj [])) none
          (Doc.mk "page.title" [] (some (some "English")))) =
      .error (World.mk (I18nState.mk "zh" (JsValue.vObj [])) (some "en")
        (Doc.mk "page.title" [] (some (some "English")))) ∧
    ("zh" : String) ≠ "en" ∧ ("English" : String) ≠ "中文" :=
  ⟨rfl, rfl, by decide, by decide⟩

theorem toggle_label_after_init_and_click_witness :
    (World.mk (I18nState.mk "zh" (JsValue.vObj [])) none
        (Doc.mk "" [] (some (some "x")))).st.currentLanguage = "zh" ∧
    (World.mk (I18nState.mk "zh" (JsValue.vObj [])) none
        (Doc.mk "" [] (some (some "x")))).doc.switcherLabel =
      some (some "x") ∧
    wfDoc (World.mk (I18nState.mk "zh" (JsValue.vObj [])) none
        (Doc.mk "" [] (some (some "x")))).doc = true ∧
    ((fun _ => FetchOutcome.resp true (some (JsValue.vObj [("k", JsValue.vStr "v")])))
        "en" =
      FetchOutcome.resp true (some (JsValue.vObj [("k", JsValue.vStr "v")]))) ∧
    (∃ w1 w2,
      init (fun _ => FetchOutcome.resp true
          (some (JsValue.vObj [("k", JsValue.vStr "v")])))
        (World.mk (I18nState.mk "zh" (JsValue.vObj [])) none
          (Doc.mk "" [] (some (some "x")))) = .ok w1 ∧
      w1.st.currentLanguage = "zh" ∧
      w1.doc.switcherLabel = some (some "English") ∧
      clickSwitcher (fun _ => FetchOutcome.resp true
          (some (JsValue.vObj [("k", JsValue.vStr "v")]))) w1 = .ok w2 ∧
      w2.st.currentLanguage = "en" ∧
      w2.st.translations = JsValue.vObj [("k", JsValue.vStr "v")] ∧
      w2.doc.switcherLabel = some (some "中文")) :=
  ⟨rfl, rfl, rfl, rfl,
    toggle_label_after_init_and_click
      (fun _ => FetchOutcome.resp true
        (some (JsValue.vObj [("k", JsValue.vStr "v")])))
      (World.mk (I18nState.mk "zh" (JsValue.vObj [])) none
        (Doc.mk "" [] (some (some "x"))))
      "x" (JsValue.vObj [("k", JsValue.vStr "v")]) rfl rfl rfl rfl⟩

theorem elem_text_clause (tr : JsValue) (e e2 : Element)
    (h2 : applyAttrOne tr (applyTextOne tr e) = .ok e2)
    (k : String) (hk : getAttr e "data-i18n" = some k)
    (hil : inputLike e = false) :
    (applyPlaceholderOne tr (applyTitleOne tr e2)).textContent =
      t tr k "" := by
  have he1 : (applyTextOne tr e).textContent = t tr k "" := by
    simp [applyTextOne, hk, hil]
  have he2 := (applyAttrOne_preserves tr _ e2 h2).1
  rw [textContent_applyPlaceholderOne, textContent_applyTitleOne, he2, he1]

theorem elem_placeholder_clause (tr : JsValue) (e e2 : Element)
    (h2 : applyAttrOne tr (applyTextOne tr e) = .ok e2)
    (k : String) (hk : getAttr e "data-i18n" = some k)
    (hil : inputLike e = true)
    (hnp : getAttr e "data-i18n-placeholder" = none)
    (hat1 : attrTarget e ≠ some "placeholder")
    (hat2 : attrTarget e ≠ some "data-i18n-placeholder") :
    getAttr (applyPlaceholderOne tr (applyTitleOne tr e2)) "placeholder" =
      some (t tr k "") := by
  have he1 : applyTextOne tr e = setAttr e "placeholder" (t tr k "") := by
    simp [applyTextOne, hk, hil]
  have h1p : getAttr (applyTextOne tr e) "placeholder" = some (t tr k "") := by
    rw [he1, getAttr_setAttr, if_pos rfl]
  have h1m : getAttr (applyTextOne tr e) "data-i18n-attr" =
      getAttr e "data-i18n-attr" :=
    getAttr_applyTextOne tr e "data-i18n-attr" (by decide)
  have h1np : getAttr (applyTextOne tr e) "data-i18n-placeholder" = none := by
    rw [getAttr_applyTextOne tr e "data-i18n-placeholder" (by decide), hnp]
  suffices hp2 : getAttr e2 "placeholder" = some (t tr k "") ∧
      getAttr e2 "data-i18n-placeholder" = none by
    have h3p : getAttr (applyTitleOne tr e2) "placeholder" =
        some (t tr k "") := by
      rw [getAttr_applyTitleOne tr e2 "placeholder" (by decide)]
      exact hp2.1
    have h3np : getAttr (applyTitleOne tr e2) "data-i18n-placeholder" =
        none := by
      rw [getAttr_applyTitleOne tr e2 "data-i18n-placeholder" (by decide)]
      exact hp2.2
    simp only [applyPlaceholderOne, h3np]
    exact h3p
  cases hm : getAttr e "data-i18n-attr" with
  | none =>
      have hm1 : getAttr (applyTextOne tr e) "data-i18n-attr" = none := by
        rw [h1m, hm]
      simp only [applyAttrOne, hm1, Except.ok.injEq] at h2
      rw [← h2]
      exact ⟨h1p, h1np⟩
  | some s =>
      have hms : getAttr (applyTextOne tr e) "data-i18n-attr" = some s := by
        rw [h1m, hm]
      cases hsplit : splitChar (Char.ofNat 58) s with
      | nil => simp [applyAttrOne, hms, hsplit] at h2
      | cons a rest =>
          cases rest with
          | nil => simp [applyAttrOne, hms, hsplit] at h2
          | cons k2 rest2 =>
              simp only [applyAttrOne, hms, hsplit, Except.ok.injEq] at h2
              have ha : attrTarget e = some a := by
                simp [attrTarget, hm, hsplit]
              have ha1 : a ≠ "placeholder" := fun hh =>
                hat1 (by rw [ha, hh])
              have ha2 : a ≠ "data-i18n-placeholder" := fun hh =>
                hat2 (by rw [ha, hh])
              rw [← h2]
              constructor
              · rw [getAttr_setAttr, if_neg ha1]
                exact h1p
              · rw [getAttr_setAttr, if_neg ha2]
                exact h1np

theorem elem_attr_clause (tr : JsValue) (e e2 : Element)
    (h2 : applyAttrOne tr (applyTextOne tr e) = .ok e2)
    (s a k : String)
    (hs : getAttr e "data-i18n-attr" = some s)
    (hsplit : splitChar (Char.ofNat 58) s = [a, k])
    (hti : a = "title" → getAttr e "data-i18n-title" = none)
    (hpl : a = "placeholder" → inputLike e = true →
      getAttr e "data-i18n-placeholder" = none) :
    getAttr (applyPlaceholderOne tr (applyTitleOne tr e2)) a =
      some (t tr k "") := by
  have h1m : getAttr (applyTextOne tr e) "data-i18n-attr" = some s := by
    rw [getAttr_applyTextOne tr e "data-i18n-attr" (by decide), hs]
  simp only [applyAttrOne, h1m, hsplit, Except.ok.injEq] at h2
  have h2a : getAttr e2 a = some (t tr k "") := by
    rw [← h2, getAttr_setAttr, if_pos rfl]
  have h3a : getAttr (applyTitleOne tr e2) a = some (t tr k "") := by
    by_cases hat : a = "title"
    · have hnone : getAttr e2 "data-i18n-title" = none := by
        rw [← h2, getAttr_setAttr, if_neg (by rw [hat]; decide),
          getAttr_applyTextOne tr e "data-i18n-title" (by decide)]
        exact hti hat
      simp only [applyTitleOne, hnone]
      exact h2a
    · unfold applyTitleOne
      cases hm3 : getAttr e2 "data-i18n-title" with
      | none => exact h2a
      | some kt =>
          rw [getAttr_setAttr, if_neg (fun hh => hat hh.symm)]
          exact h2a
  by_cases hap : a = "placeholder"
  · have hil3 : inputLike (applyTitleOne tr e2) = inputLike e := by
      rw [inputLike_applyTitleOne, ← h2, inputLike_setAttr,
        inputLike_applyTextOne]
    cases hil : inputLike e with
    | false =>
        unfold applyPlaceholderOne
        cases hm4 : getAttr (applyTitleOne tr e2) "data-i18n-placeholder" with
        | none => exact h3a
        | some kp =>
            rw [hil] at hil3
            simp only [hil3, if_false, Bool.false_eq_true]
            exact h3a
    | true =>
        have hnp := hpl hap hil
        have h3np : getAttr (applyTitleOne tr e2) "data-i18n-placeholder" =
            none := by
          rw [getAttr_applyTitleOne tr e2 "data-i18n-placeholder" (by decide),
            ← h2, getAttr_setAttr, if_neg (by rw [hap]; decide),
            getAttr_applyTextOne tr e "data-i18n-placeholder" (by decide)]
          exact hnp
        simp only [applyPlaceholderOne, h3np]
        exact h3a
  · unfold applyPlaceholderOne
    cases hm4 : getAttr (applyTitleOne tr e2) "data-i18n-placeholder" with
    | none => exact h3a
    | some kp =>
        cases hil : inputLike (applyTitleOne tr e2) with
        | false =>
            simp only [hil, if_false, Bool.false_eq_true]
            exact h3a
        | true =>
            simp only [hil, if_true]
            rw [getAttr_setAttr, if_neg (fun hh => hap hh.symm)]
            exact h3a

theorem applyLanguage_ok_elim (tr : JsValue) (d d1 : Doc)
    (h : applyLanguage tr d = .ok d1) :
    ∃ es2, applyAttrPass tr (d.elements.map (applyTextOne tr)) = .ok es2 ∧
      d1 = { title := t tr "page.title" ""
             elements :=
               (es2.map (applyTitleOne tr)).map (applyPlaceholderOne tr)
             switcherLabel := d.switcherLabel } := by
  cases hp : applyAttrPass tr (d.elements.map (applyTextOne tr)) with
  | error es => simp [applyLanguage, hp] at h
  | ok es2 =>
      simp only [applyLanguage, hp, Except.ok.injEq] at h
      exact ⟨es2, rfl, h.symm⟩

/-- C2 (amended): after a successful `applyLanguage`, the document title is
`t("page.title")` and the element list keeps its length; the element at each
position satisfies: (a) if it bore a plain-text marker with key `k` and is
not input-like, its text content is `t(k)`; (b) if it is input-like and bore
a plain-text marker with key `k`, no placeholder marker, and no attribute
marker targeting `placeholder` or `data-i18n-placeholder`, its placeholder
attribute is `t(k)`; (c) if it bore an attribute marker of the exact form
`a:k` — with no title marker when `a` is `title`, and no placeholder marker
when `a` is `placeholder` on an input-like element — its attribute `a` is
`t(k)`.  (The provisos are necessary: later passes rewrite the same
properties, see the counterexample.) -/
theorem applyLanguage_marker_bindings (tr : JsValue) (d d1 : Doc)
    (h : applyLanguage tr d = .ok d1) :
    d1.title = t tr "page.title" "" ∧
    d1.elements.length = d.elements.length ∧
    ∀ i (hi : i < d.elements.length) (hi1 : i < d1.elements.length),
      (∀ k, getAttr d.elements[i] "data-i18n" = some k →
        inputLike d.elements[i] = false →
        (d1.elements[i]).textContent = t tr k "") ∧
      (∀ k, getAttr d.elements[i] "data-i18n" = some k →
        inputLike d.elements[i] = true →
        getAttr d.elements[i] "data-i18n-placeholder" = none →
        attrTarget d.elements[i] ≠ some "placeholder" →
        attrTarget d.elements[i] ≠ some "data-i18n-placeholder" →
        getAttr d1.elements[i] "placeholder" = some (t tr k "")) ∧
      (∀ s a k, getAttr d.elements[i] "data-i18n-attr" = some s →
        splitChar (Char.ofNat 58) s = [a, k] →
        (a = "title" → getAttr d.elements[i] "data-i18n-title" = none) →
        (a = "placeholder" → inputLike d.elements[i] = true →
          getAttr d.elements[i] "data-i18n-placeholder" = none) →
        getAttr d1.elements[i] a = some (t tr k "")) := by
  obtain ⟨es2, hpass, hd1⟩ := applyLanguage_ok_elim tr d d1 h
  subst hd1
  obtain ⟨hlen2, hpt⟩ := applyAttrPass_ok_pointwise tr _ es2 hpass
  rw [List.length_map] at hlen2
  refine ⟨rfl, ?_, ?_⟩
  · simp [hlen2]
  · intro i hi hi1
    have hi2 : i < es2.length := by
      simpa using hi1
    have himap : i < (d.elements.map (applyTextOne tr)).length := by
      simpa using hi
    have hone := hpt i himap hi2
    rw [List.getElem_map] at hone
    simp only [List.getElem_map]
    refine ⟨?_, ?_, ?_⟩
    · intro k hk hil
      exact elem_text_clause tr d.elements[i] _ hone k hk hil
    · intro k hk hil hnp h1 h2
      exact elem_placeholder_clause tr d.elements[i] _ hone k hk hil hnp h1 h2
    · intro s a k hs hsp hti hpl
      exact elem_attr_clause tr d.elements[i] _ hone s a k hs hsp hti hpl

/-- C2 counterexample: an INPUT element bearing both a plain-text marker
(`data-i18n="a"`) and a placeholder marker (`data-i18n-placeholder="b"`)
ends, after `applyLanguage`, with placeholder `t("b") = "B"`, not
`t("a") = "A"` as the claim requires for its plain-text marker: the
placeholder pass overwrites the plain-text pass. -/
theorem applyLanguage_placeholder_conflict :
    applyLanguage
        (JsValue.vObj [("a", JsValue.vStr "A"), ("b", JsValue.vStr "B")])
        (Doc.mk "" [Element.mk "INPUT" ""
          [("data-i18n", "a"), ("data-i18n-placeholder", "b")]] none) =
      .ok (Doc.mk "page.title" [Element.mk "INPUT" ""
          [("data-i18n", "a"), ("data-i18n-placeholder", "b"),
           ("placeholder", "B")]] none) ∧
    t (JsValue.vObj [("a", JsValue.vStr "A"), ("b", JsValue.vStr "B")])
        "a" "" = "A" ∧
    ("B" : String) ≠ "A" :=
  ⟨rfl, rfl, by decide⟩

theorem applyLanguage_marker_bindings_witness :
    applyLanguage (JsValue.vObj [("a", JsValue.vStr "A")])
        (Doc.mk "" [Element.mk "SPAN" "" [("data-i18n", "a")]] none) =
      .ok (Doc.mk "page.title"
        [Element.mk "SPAN" "A" [("data-i18n", "a")]] none) ∧
    ((Doc.mk "page.title"
        [Element.mk "SPAN" "A" [("data-i18n", "a")]] none).title =
      t (JsValue.vObj [("a", JsValue.vStr "A")]) "page.title" "" ∧
    (Doc.mk "page.title"
        [Element.mk "SPAN" "A" [("data-i18n", "a")]] none).elements.length =
      (Doc.mk ""
        [Element.mk "SPAN" "" [("data-i18n", "a")]] none).elements.length ∧
    ∀ i (hi : i < (Doc.mk ""
        [Element.mk "SPAN" "" [("data-i18n", "a")]] none).elements.length)
      (hi1 : i < (Doc.mk "page.title"
        [Element.mk "SPAN" "A" [("data-i18n", "a")]] none).elements.length),
      (∀ k, getAttr (Doc.mk ""
          [Element.mk "SPAN" "" [("data-i18n", "a")]] none).elements[i]
          "data-i18n" = some k →
        inputLike (Doc.mk ""
          [Element.mk "SPAN" "" [("data-i18n", "a")]] none).elements[i] =
          false →
        ((Doc.mk "page.title"
          [Element.mk "SPAN" "A" [("data-i18n", "a")]]
          none).elements[i]).textContent =
          t (JsValue.vObj [("a", JsValue.vStr "A")]) k "") ∧
      (∀ k, getAttr (Doc.mk ""
          [Element.mk "SPAN" "" [("data-i18n", "a")]] none).elements[i]
          "data-i18n" = some k →
        inputLike (Doc.mk ""
          [Element.mk "SPAN" "" [("data-i18n", "a")]] none).elements[i] =
          true →
        getAttr (Doc.mk ""
          [Element.mk "SPAN" "" [("data-i18n", "a")]] none).elements[i]
          "data-i18n-placeholder" = none →
        attrTarget (Doc.mk ""
          [Element.mk "SPAN" "" [("data-i18n", "a")]] none).elements[i] ≠
          some "placeholder" →
        attrTarget (Doc.mk ""
          [Element.mk "SPAN" "" [("data-i18n", "a")]] none).elements[i] ≠
          some "data-i18n-placeholder" →
        getAttr (Doc.mk "page.title"
          [Element.mk "SPAN" "A" [("data-i18n", "a")]] none).elements[i]
          "placeholder" =
          some (t (JsValue.vObj [("a", JsValue.vStr "A")]) k "")) ∧
      (∀ s a k, getAttr (Doc.mk ""
          [Element.mk "SPAN" "" [("data-i18n", "a")]] none).elements[i]
          "data-i18n-attr" = some s →
        splitChar (Char.ofNat 58) s = [a, k] →
        (a = "title" → getAttr (Doc.mk ""
          [Element.mk "SPAN" "" [("data-i18n", "a")]] none).elements[i]
          "data-i18n-title" = none) →
        (a = "placeholder" → inputLike (Doc.mk ""
          [Element.mk "SPAN" "" [("data-i18n", "a")]] none).elements[i] =
          true →
          getAttr (Doc.mk ""
            [Element.mk "SPAN" "" [("data-i18n", "a")]] none).elements[i]
            "data-i18n-placeholder" = none) →
        getAttr (Doc.mk "page.title"
          [Element.mk "SPAN" "A" [("data-i18n", "a")]] none).elements[i] a =
          some (t (JsValue.vObj [("a", JsValue.vStr "A")]) k ""))) :=
  ⟨rfl, applyLanguage_marker_bindings
    (JsValue.vObj [("a", JsValue.vStr "A")])
    (Doc.mk "" [Element.mk "SPAN" "" [("data-i18n", "a")]] none)
    (Doc.mk "page.title" [Element.mk "SPAN" "A" [("data-i18n", "a")]] none)
    rfl⟩

end Mailfree
